import Mathlib

/-!
Verification of the grocery-ledger core of this repository: month balance
rollover, recompute-on-write totals, and the chat command interpreter.
Shallow embedding of `src/app.py` and `src/telegram_bot.py`.

Conventions of the embedding:
* Monetary amounts are rationals; the Python code carries them as floats,
  but all claims are about the exact ledger arithmetic.
* The Mongo document store becomes a function from (year, month name) to an
  optional month document; each atomic document operation becomes a pure
  store update.  `insert_one` racing against a concurrent creator is
  modelled by an explicit `race : Option MonthRec` parameter: `none` means
  our insert succeeds, `some winner` means a concurrent writer already
  created `winner`, so our insert raises and the store holds `winner`.
* `datetime.now()` is passed explicitly as a `today : Date` parameter.
* Fallible Python code (raised exceptions) returns `Option` or an error
  constructor.
-/

namespace Grocery

/-- Calendar date at day granularity, as used by the Python `datetime`
objects flowing through the code. -/
structure Date where
  year : Int
  month : Nat
  day : Nat
deriving DecidableEq, Repr

/-- One dated monetary transaction as stored in the `daily_expenses` /
`credits` arrays (`app.py` builds `{"date": ..., "amount": ..., "description"?}`). -/
structure Entry where
  date : Date
  amount : ℚ
  description : Option String
deriving DecidableEq, Repr

/-- A month document, the per-(year, month) aggregate of `app.py`. -/
structure MonthRec where
  month : String
  daily_expenses : List Entry
  credits : List Entry
  total_expense : ℚ
  balance : ℚ
deriving DecidableEq, Repr

/-- The canonical month names (`MONTHS` in `app.py`). -/
def MONTHS : List String :=
  ["January", "February", "March", "April", "May", "June",
   "July", "August", "September", "October", "November", "December"]

/-- The document store: one optional month document per (year, month name).
Collections are keyed by year (`db[str(year)]`), documents by month name. -/
def Store := Int → String → Option MonthRec

/-- Overwrite (or create) the document at (year, month name). -/
def storeSet (s : Store) (y : Int) (m : String) (d : MonthRec) : Store :=
  fun y2 m2 => if y2 = y ∧ m2 = m then some d else s y2 m2

/-- Python `list.index` returning `Option` instead of raising `ValueError`. -/
def list_index (m : String) : List String → Option Nat
  | [] => none
  | x :: xs => if x = m then some 0 else (list_index m xs).map (· + 1)

/-- `get_previous_month_name` (`app.py:99`): previous canonical month name,
`none` for a non-canonical input (the `ValueError` branch returns `None`).
Python `(i - 1) % 12` equals `(i + 11) % 12` for `i` in `0..11`. -/
def get_previous_month_name (month_name : String) : Option String :=
  match list_index month_name MONTHS with
  | some i => some (MONTHS.getD ((i + 11) % 12) "")
  | none => none

/-- `get_previous_month_balance` (`app.py:127`): balance of the previous
month's document, looking at December of `year - 1` when the current month
is January, and returning 0 whenever the previous document is absent or the
month name is invalid. -/
def get_previous_month_balance (s : Store) (month_name : String) (year : Int) : ℚ :=
  match get_previous_month_name month_name with
  | none => 0
  | some prev =>
    if month_name = "January" then
      match s (year - 1) "December" with
      | some d => d.balance
      | none => 0
    else
      match s year prev with
      | some d => d.balance
      | none => 0

/-- Sum of the `amount` fields of a transaction array (the generator
expressions inside `recalculate_month_totals`). -/
def sum_amounts (l : List Entry) : ℚ := (l.map Entry.amount).sum

/-- `create_month_skeleton` (`app.py:186`): fresh month document with empty
arrays and the inherited previous balance. -/
def create_month_skeleton (s : Store) (month_name : String) (year : Int) : MonthRec :=
  { month := month_name
    daily_expenses := []
    credits := []
    total_expense := 0
    balance := get_previous_month_balance s month_name year }

/-- `recalculate_month_totals` (`app.py:206`): recompute `total_expense`
and `balance` from the transaction arrays and the inherited balance. -/
def recalculate_month_totals (doc : MonthRec) (previous_balance : ℚ) : MonthRec :=
  let total_expense := sum_amounts doc.daily_expenses
  let total_credits := sum_amounts doc.credits
  { doc with
      total_expense := total_expense
      balance := previous_balance + total_expense - total_credits }

/-- Transaction kind: which array an entry is appended to. -/
inductive TxnKind where
  | purchase
  | payment
deriving DecidableEq, Repr

/-- Append an entry to the array selected by the kind (the `$push` update in
`add_transaction` / `_process_transaction_command`). -/
def append_entry (doc : MonthRec) (k : TxnKind) (e : Entry) : MonthRec :=
  match k with
  | .purchase => { doc with daily_expenses := doc.daily_expenses ++ [e] }
  | .payment => { doc with credits := doc.credits ++ [e] }

/-- One append-then-recompute step with inherited balance `B`, i.e. the
`$push` followed by `recalculate_month_totals` and the `$set` of the two
derived fields. -/
def add_and_recompute (B : ℚ) (doc : MonthRec) (t : TxnKind × Entry) : MonthRec :=
  recalculate_month_totals (append_entry doc t.1 t.2) B

/-- Fold a whole sequence of append-and-recompute steps over a document. -/
def apply_txns (B : ℚ) (doc : MonthRec) (ts : List (TxnKind × Entry)) : MonthRec :=
  ts.foldl (add_and_recompute B) doc

/-- A fresh month record carrying inherited balance `B`; this is exactly
`create_month_skeleton` once the inherited balance has been looked up. -/
def fresh_month (m : String) (B : ℚ) : MonthRec :=
  { month := m, daily_expenses := [], credits := [], total_expense := 0, balance := B }

/-- The purchase entries of a transaction sequence, in order. -/
def purchase_entries (ts : List (TxnKind × Entry)) : List Entry :=
  (ts.filter (fun t => t.1 == TxnKind.purchase)).map Prod.snd

/-- The payment entries of a transaction sequence, in order. -/
def payment_entries (ts : List (TxnKind × Entry)) : List Entry :=
  (ts.filter (fun t => t.1 == TxnKind.payment)).map Prod.snd

/-- The purchase amounts of a transaction sequence. -/
def purchase_amounts (ts : List (TxnKind × Entry)) : List ℚ :=
  (purchase_entries ts).map Entry.amount

/-- The payment amounts of a transaction sequence. -/
def payment_amounts (ts : List (TxnKind × Entry)) : List ℚ :=
  (payment_entries ts).map Entry.amount

theorem create_month_skeleton_eq_fresh (s : Store) (m : String) (y : Int) :
    create_month_skeleton s m y = fresh_month m (get_previous_month_balance s m y) := rfl

theorem recalc_preserves_daily (doc : MonthRec) (B : ℚ) :
    (recalculate_month_totals doc B).daily_expenses = doc.daily_expenses := rfl

theorem recalc_preserves_credits (doc : MonthRec) (B : ℚ) :
    (recalculate_month_totals doc B).credits = doc.credits := rfl

theorem apply_txns_cons (B : ℚ) (doc : MonthRec) (t : TxnKind × Entry)
    (ts : List (TxnKind × Entry)) :
    apply_txns B doc (t :: ts) = apply_txns B (add_and_recompute B doc t) ts := rfl

theorem apply_txns_lists (B : ℚ) :
    ∀ (ts : List (TxnKind × Entry)) (doc : MonthRec),
      (apply_txns B doc ts).daily_expenses = doc.daily_expenses ++ purchase_entries ts
      ∧ (apply_txns B doc ts).credits = doc.credits ++ payment_entries ts := by
  intro ts
  induction ts with
  | nil =>
    intro doc
    simp [apply_txns, purchase_entries, payment_entries]
  | cons t ts ih =>
    intro doc
    obtain ⟨k, e⟩ := t
    have h := ih (add_and_recompute B doc (k, e))
    rw [apply_txns_cons]
    cases k with
    | purchase =>
      constructor
      · rw [h.1]
        simp [add_and_recompute, append_entry, recalculate_month_totals, purchase_entries]
      · rw [h.2]
        simp [add_and_recompute, append_entry, recalculate_month_totals, payment_entries]
    | payment =>
      constructor
      · rw [h.1]
        simp [add_and_recompute, append_entry, recalculate_month_totals, purchase_entries]
      · rw [h.2]
        simp [add_and_recompute, append_entry, recalculate_month_totals, payment_entries]

theorem apply_txns_totals (B : ℚ) :
    ∀ (ts : List (TxnKind × Entry)) (doc : MonthRec), ts ≠ [] →
      (apply_txns B doc ts).total_expense = sum_amounts (apply_txns B doc ts).daily_expenses
      ∧ (apply_txns B doc ts).balance
          = B + sum_amounts (apply_txns B doc ts).daily_expenses
              - sum_amounts (apply_txns B doc ts).credits := by
  intro ts
  induction ts with
  | nil => intro doc h; exact absurd rfl h
  | cons t ts ih =>
    intro doc _
    rw [apply_txns_cons]
    by_cases hts : ts = []
    · subst hts
      simp [apply_txns, add_and_recompute, recalculate_month_totals]
    · exact ih (add_and_recompute B doc t) hts

/-- C1: for every fresh month record with inherited balance B and every
sequence of positive purchase and payment entries appended to it via
append-and-recompute, the final record satisfies
`total_expense = Σ purchases` and `balance = B + Σ purchases − Σ payments`,
and any permutation of the sequence yields the same two totals. -/
theorem C1_rollover_totals (B : ℚ) (m : String) (ts : List (TxnKind × Entry))
    (hpos : ∀ t ∈ ts, 0 < (Prod.snd t).amount) :
    ((apply_txns B (fresh_month m B) ts).total_expense = (purchase_amounts ts).sum
      ∧ (apply_txns B (fresh_month m B) ts).balance
          = B + (purchase_amounts ts).sum - (payment_amounts ts).sum)
    ∧ ∀ ts2 : List (TxnKind × Entry), ts.Perm ts2 →
        (∀ t ∈ ts2, 0 < (Prod.snd t).amount)
        ∧ (apply_txns B (fresh_month m B) ts2).total_expense
            = (apply_txns B (fresh_month m B) ts).total_expense
        ∧ (apply_txns B (fresh_month m B) ts2).balance
            = (apply_txns B (fresh_month m B) ts).balance := by
  have formula : ∀ us : List (TxnKind × Entry),
      (apply_txns B (fresh_month m B) us).total_expense = (purchase_amounts us).sum
      ∧ (apply_txns B (fresh_month m B) us).balance
          = B + (purchase_amounts us).sum - (payment_amounts us).sum := by
    intro us
    by_cases hus : us = []
    · subst hus
      constructor
      · simp [apply_txns, fresh_month, purchase_amounts, purchase_entries]
      · simp [apply_txns, fresh_month, purchase_amounts, purchase_entries,
              payment_amounts, payment_entries]
    · have hl := apply_txns_lists B us (fresh_month m B)
      have ht := apply_txns_totals B us (fresh_month m B) hus
      have hd : (apply_txns B (fresh_month m B) us).daily_expenses = purchase_entries us := by
        rw [hl.1]; rfl
      have hc : (apply_txns B (fresh_month m B) us).credits = payment_entries us := by
        rw [hl.2]; rfl
      constructor
      · rw [ht.1, hd]; rfl
      · rw [ht.2, hd, hc]; rfl
  refine ⟨formula ts, ?_⟩
  intro ts2 hperm
  have hsum1 : (purchase_amounts ts2).sum = (purchase_amounts ts).sum := by
    have h := (((hperm.filter (fun t => t.1 == TxnKind.purchase)).map Prod.snd).map
      Entry.amount).sum_eq
    simpa [purchase_amounts, purchase_entries] using h.symm
  have hsum2 : (payment_amounts ts2).sum = (payment_amounts ts).sum := by
    have h := (((hperm.filter (fun t => t.1 == TxnKind.payment)).map Prod.snd).map
      Entry.amount).sum_eq
    simpa [payment_amounts, payment_entries] using h.symm
  refine ⟨fun t ht => hpos t (hperm.mem_iff.mpr ht), ?_, ?_⟩
  · rw [(formula ts2).1, (formula ts).1, hsum1]
  · rw [(formula ts2).2, (formula ts).2, hsum1, hsum2]

/-- C1 witness: the spec scenario — purchase 2500 then payment 1000 on a
fresh month with inherited balance 0 gives totals 2500 and balance 1500. -/
theorem C1_rollover_totals_witness :
    (∀ t ∈ [(TxnKind.purchase, Entry.mk ⟨2026, 1, 15⟩ 2500 none),
            (TxnKind.payment, Entry.mk ⟨2026, 1, 20⟩ 1000 none)], 0 < (Prod.snd t).amount)
    ∧ (apply_txns 0 (fresh_month "January" 0)
        [(TxnKind.purchase, Entry.mk ⟨2026, 1, 15⟩ 2500 none),
         (TxnKind.payment, Entry.mk ⟨2026, 1, 20⟩ 1000 none)]).total_expense
        = (purchase_amounts [(TxnKind.purchase, Entry.mk ⟨2026, 1, 15⟩ 2500 none),
            (TxnKind.payment, Entry.mk ⟨2026, 1, 20⟩ 1000 none)]).sum := by
  refine ⟨by decide, ?_⟩
  exact ((C1_rollover_totals 0 "January"
    [(TxnKind.purchase, Entry.mk ⟨2026, 1, 15⟩ 2500 none),
     (TxnKind.payment, Entry.mk ⟨2026, 1, 20⟩ 1000 none)] (by decide)).1).1

/-- C4: `recalculate_month_totals` is deterministic (a pure function) and
idempotent: recomputing twice with the same inherited balance yields the
same `total_expense` and `balance` (indeed the same whole record) as
recomputing once. -/
theorem C4_recalculate_idempotent (doc : MonthRec) (previous_balance : ℚ) :
    (recalculate_month_totals (recalculate_month_totals doc previous_balance)
        previous_balance).total_expense
      = (recalculate_month_totals doc previous_balance).total_expense
    ∧ (recalculate_month_totals (recalculate_month_totals doc previous_balance)
        previous_balance).balance
      = (recalculate_month_totals doc previous_balance).balance
    ∧ recalculate_month_totals (recalculate_month_totals doc previous_balance) previous_balance
      = recalculate_month_totals doc previous_balance :=
  ⟨rfl, rfl, rfl⟩

/-- Calendar predecessor of each canonical month name, written from the
spec's words: December precedes January (in the previous year), otherwise
the preceding month of the same year. -/
def CALENDAR_PRED : List (String × String) :=
  [("January", "December"), ("February", "January"), ("March", "February"),
   ("April", "March"), ("May", "April"), ("June", "May"), ("July", "June"),
   ("August", "July"), ("September", "August"), ("October", "September"),
   ("November", "October"), ("December", "November")]

/-- Spec-side inherited balance (`inheritedBalance` of the spec): the stored
balance of the calendar-previous month's record — December of `year − 1`
for January, the preceding month of the same year otherwise — and 0 when
that record is absent. -/
def inherited_balance_spec (s : Store) (m : String) (y : Int) : ℚ :=
  match CALENDAR_PRED.find? (fun p => p.1 == m) with
  | none => 0
  | some p =>
    match s (if m = "January" then y - 1 else y) p.2 with
    | some d => d.balance
    | none => 0

/-- C2: for every canonical month and year, the inherited balance computed
by the code equals the spec's: the stored balance of the previous month's
record (December of `year − 1` for January), or 0 when absent; and the
freshly created month skeleton starts from exactly that balance. -/
theorem C2_inherited_balance (s : Store) (y : Int) (m : String) (hm : m ∈ MONTHS) :
    get_previous_month_balance s m y = inherited_balance_spec s m y
    ∧ (create_month_skeleton s m y).balance = inherited_balance_spec s m y := by
  simp only [MONTHS, List.mem_cons, List.not_mem_nil, or_false] at hm
  rcases hm with rfl | rfl | rfl | rfl | rfl | rfl | rfl | rfl | rfl | rfl | rfl | rfl <;>
    exact ⟨rfl, rfl⟩

/-- C2 witness: January 2026 inherits December 2025's stored balance 800. -/
theorem C2_inherited_balance_witness :
    ("January" ∈ MONTHS)
    ∧ (get_previous_month_balance
        (fun y2 m2 => if y2 = 2025 ∧ m2 = "December" then some (fresh_month "December" 800) else none)
        "January" 2026
      = inherited_balance_spec
        (fun y2 m2 => if y2 = 2025 ∧ m2 = "December" then some (fresh_month "December" 800) else none)
        "January" 2026
    ∧ (create_month_skeleton
        (fun y2 m2 => if y2 = 2025 ∧ m2 = "December" then some (fresh_month "December" 800) else none)
        "January" 2026).balance
      = inherited_balance_spec
        (fun y2 m2 => if y2 = 2025 ∧ m2 = "December" then some (fresh_month "December" 800) else none)
        "January" 2026) :=
  ⟨by decide,
   C2_inherited_balance
     (fun y2 m2 => if y2 = 2025 ∧ m2 = "December" then some (fresh_month "December" 800) else none)
     2026 "January" (by decide)⟩

theorem list_index_eq_none {m : String} :
    ∀ {l : List String}, m ∉ l → list_index m l = none := by
  intro l
  induction l with
  | nil => intro _; rfl
  | cons x xs ih =>
    intro h
    have hx : ¬ x = m := fun e => h (e ▸ List.mem_cons_self x xs)
    have hxs : m ∉ xs := fun hmem => h (List.mem_cons_of_mem x hmem)
    simp [list_index, hx, ih hxs]

/-- C9: previous-month lookup is total over arbitrary strings: for any
non-canonical month name, `get_previous_month_name` returns `none` rather
than raising, and `get_previous_month_balance` returns 0 for every store
and year (so in particular it performs no store lookup that matters). -/
theorem C9_lookup_total (m : String) (hm : m ∉ MONTHS) :
    get_previous_month_name m = none
    ∧ ∀ (s : Store) (y : Int), get_previous_month_balance s m y = 0 := by
  have h : list_index m MONTHS = none := list_index_eq_none hm
  constructor
  · unfold get_previous_month_name
    rw [h]
  · intro s y
    unfold get_previous_month_balance get_previous_month_name
    rw [h]

/-- C9 witness: a concrete non-canonical month name. -/
theorem C9_lookup_total_witness :
    ("Octember" ∉ MONTHS)
    ∧ (get_previous_month_name "Octember" = none
       ∧ ∀ (s : Store) (y : Int), get_previous_month_balance s "Octember" y = 0) :=
  ⟨by decide, C9_lookup_total "Octember" (by decide)⟩

/-- Python `str.strip()`. -/
def pyStrip (s : String) : String :=
  String.mk ((s.data.dropWhile Char.isWhitespace).reverse.dropWhile Char.isWhitespace).reverse

/-- Python `str.lower()` (inputs here are ASCII). -/
def pyLower (s : String) : String := String.mk (s.data.map Char.toLower)

/-- Split a character list at every character satisfying `p`, keeping empty
pieces — the semantics of Python `str.split(sep)`. -/
def splitOnP (p : Char → Bool) : List Char → List (List Char)
  | [] => [[]]
  | c :: cs =>
    if p c then [] :: splitOnP p cs
    else
      match splitOnP p cs with
      | t :: ts => (c :: t) :: ts
      | [] => [[c]]

/-- Python `str.split(sep)` for a single-character separator. -/
def splitOnChar (sep : Char) (cs : List Char) : List (List Char) :=
  splitOnP (· == sep) cs

/-- Python `str.split()` with no argument: split on whitespace runs and drop
empty pieces (this is also how a `\s+` gap in an `strptime` format matches). -/
def splitWS (cs : List Char) : List (List Char) :=
  (splitOnP Char.isWhitespace cs).filter (· ≠ [])

/-- String-level Python `str.split()`. -/
def splitWSstr (s : String) : List String :=
  (splitWS s.data).map String.mk

/-- Numeric value of a digit string. -/
def digitsToNat (cs : List Char) : Nat :=
  cs.foldl (fun n c => 10 * n + (c.toNat - 48)) 0

/-- True when the token is a nonempty run of ASCII digits. -/
def allDigits (cs : List Char) : Bool :=
  !cs.isEmpty && cs.all Char.isDigit

/-- An `strptime` `%d` field: one or two digits with value 1..31. -/
def dayTok (cs : List Char) : Option Nat :=
  if allDigits cs ∧ cs.length ≤ 2 then
    let n := digitsToNat cs
    if 1 ≤ n ∧ n ≤ 31 then some n else none
  else none

/-- An `strptime` `%m` field: one or two digits with value 1..12. -/
def monthTok (cs : List Char) : Option Nat :=
  if allDigits cs ∧ cs.length ≤ 2 then
    let n := digitsToNat cs
    if 1 ≤ n ∧ n ≤ 12 then some n else none
  else none

/-- An `strptime` `%Y` field: exactly four digits. -/
def yearTok (cs : List Char) : Option Int :=
  if allDigits cs ∧ cs.length = 4 then some (digitsToNat cs) else none

/-- Gregorian leap year; Python `%` on ints agrees with `Int.emod`. -/
def isLeap (y : Int) : Bool :=
  y % 4 == 0 && (y % 100 != 0 || y % 400 == 0)

/-- Days in a month of a given year. -/
def daysInMonth (y : Int) (m : Nat) : Nat :=
  if m = 2 then (if isLeap y then 29 else 28)
  else if m = 4 ∨ m = 6 ∨ m = 9 ∨ m = 11 then 30
  else 31

/-- Python `datetime(year, month, day)` construction: year 1..9999 and a day
valid for the month, else `ValueError`. -/
def mkDate (y : Int) (m d : Nat) : Option Date :=
  if 1 ≤ y ∧ y ≤ 9999 ∧ 1 ≤ m ∧ m ≤ 12 ∧ 1 ≤ d ∧ d ≤ daysInMonth y m then
    some ⟨y, m, d⟩
  else none

/-- `datetime.now() - timedelta(days=1)`. -/
def prevDay (d : Date) : Date :=
  if 1 < d.day then { d with day := d.day - 1 }
  else if 1 < d.month then { d with month := d.month - 1, day := daysInMonth d.year (d.month - 1) }
  else { year := d.year - 1, month := 12, day := 31 }

/-- Two-digit zero padding (`%m`, `%d`). -/
def pad2 (n : Nat) : String := if n < 10 then "0" ++ toString n else toString n

/-- `strftime("%Y-%m-%d")` (glibc prints the year unpadded; every year the
claims touch has four digits). -/
def strftimeYMD (d : Date) : String :=
  toString d.year ++ "-" ++ pad2 d.month ++ "-" ++ pad2 d.day

/-- Lowercase month abbreviations matched by `%b` on lowercased input. -/
def MONTH_ABBREVS : List String :=
  ["jan", "feb", "mar", "apr", "may", "jun", "jul", "aug", "sep", "oct", "nov", "dec"]

/-- Lowercase full month names matched by `%B` on lowercased input. -/
def MONTH_FULLS : List String :=
  ["january", "february", "march", "april", "may", "june", "july", "august",
   "september", "october", "november", "december"]

/-- Capitalised month abbreviations produced by `strftime("%b")`. -/
def MONTH_ABBREV_CAPS : List String :=
  ["Jan", "Feb", "Mar", "Apr", "May", "Jun", "Jul", "Aug", "Sep", "Oct", "Nov", "Dec"]

/-- Match a month-name token against a name table, returning the month
number. -/
def monthFromNames (names : List String) (tok : List Char) : Option Nat :=
  (list_index (String.mk tok) names).map (· + 1)

/-- Formats `%d<sep>%m<sep>%Y`. -/
def parseSep3 (sep : Char) (cs : List Char) : Option Date :=
  match splitOnChar sep cs with
  | [ds, ms, ys] => do
    let d ← dayTok ds
    let m ← monthTok ms
    let y ← yearTok ys
    mkDate y m d
  | _ => none

/-- Format `%Y-%m-%d`. -/
def parseISO (cs : List Char) : Option Date :=
  match splitOnChar '-' cs with
  | [ys, ms, ds] => do
    let y ← yearTok ys
    let m ← monthTok ms
    let d ← dayTok ds
    mkDate y m d
  | _ => none

/-- Formats `%d %b %Y` / `%d %B %Y`. -/
def parseDMonY (names : List String) (cs : List Char) : Option Date :=
  match splitWS cs with
  | [ds, mons, ys] => do
    let d ← dayTok ds
    let m ← monthFromNames names mons
    let y ← yearTok ys
    mkDate y m d
  | _ => none

/-- Formats `%b %d %Y` / `%B %d %Y`. -/
def parseMonDY (names : List String) (cs : List Char) : Option Date :=
  match splitWS cs with
  | [mons, ds, ys] => do
    let m ← monthFromNames names mons
    let d ← dayTok ds
    let y ← yearTok ys
    mkDate y m d
  | _ => none

/-- Formats `%d<sep>%m` without a year: `strptime` validates against its
default year 1900 (non-leap), then `replace(year=current_year)` installs the
current year — always valid because 1900 admits no 29 February. -/
def parseSep2 (sep : Char) (cy : Int) (cs : List Char) : Option Date :=
  match splitOnChar sep cs with
  | [ds, ms] => do
    let d ← dayTok ds
    let m ← monthTok ms
    let base ← mkDate 1900 m d
    some { base with year := cy }
  | _ => none

/-- Formats `%d %b` / `%d %B` without a year, same default-year treatment. -/
def parseDMonNoYear (names : List String) (cy : Int) (cs : List Char) : Option Date :=
  match splitWS cs with
  | [ds, mons] => do
    let d ← dayTok ds
    let m ← monthFromNames names mons
    let base ← mkDate 1900 m d
    some { base with year := cy }
  | _ => none

/-- The `formats_to_try` list of `parse_flexible_date`
(`telegram_bot.py:164`), tried in order, first match winning. -/
def try_formats (cy : Int) (cs : List Char) : Option Date :=
  (parseSep3 '/' cs).orElse fun _ =>
  (parseSep3 '-' cs).orElse fun _ =>
  (parseSep3 '.' cs).orElse fun _ =>
  (parseISO cs).orElse fun _ =>
  (parseDMonY MONTH_ABBREVS cs).orElse fun _ =>
  (parseDMonY MONTH_FULLS cs).orElse fun _ =>
  (parseMonDY MONTH_ABBREVS cs).orElse fun _ =>
  (parseMonDY MONTH_FULLS cs).orElse fun _ =>
  (parseSep2 '/' cy cs).orElse fun _ =>
  (parseSep2 '-' cy cs).orElse fun _ =>
  (parseDMonNoYear MONTH_ABBREVS cy cs).orElse fun _ =>
  parseDMonNoYear MONTH_FULLS cy cs

/-- `parse_flexible_date` (`telegram_bot.py:145`): empty input means today;
the stripped, lowercased literals `today` / `yesterday`; then the fixed
format list with the current year as default; else
`(False, "Invalid date format")`. -/
def parse_flexible_date (today : Date) (date_str : String) : Bool × String :=
  if date_str = "" then (true, strftimeYMD today)
  else
    let ds := pyLower (pyStrip date_str)
    let cy := today.year
    if ds = "today" then (true, strftimeYMD today)
    else if ds = "yesterday" then (true, strftimeYMD (prevDay today))
    else
      match try_formats cy ds.data with
      | some d => (true, strftimeYMD d)
      | none => (false, "Invalid date format")

/-- C5: `parse_flexible_date` accepts, in priority order: empty input
(today), the case-insensitive literals today/yesterday, then the fixed
pattern list with the current year as default for year-less patterns; the
four spec examples all yield 2026-01-15; a year-less date takes the current
year; and a non-matching input fails with the invalid-date error. -/
theorem C5_parse_flexible_date (today : Date) :
    parse_flexible_date today "" = (true, strftimeYMD today)
    ∧ parse_flexible_date today "today" = (true, strftimeYMD today)
    ∧ parse_flexible_date today "  TODAY " = (true, strftimeYMD today)
    ∧ parse_flexible_date today "Yesterday" = (true, strftimeYMD (prevDay today))
    ∧ parse_flexible_date today "15/1/2026" = (true, "2026-01-15")
    ∧ parse_flexible_date today "15-1-2026" = (true, "2026-01-15")
    ∧ parse_flexible_date today "15 jan 2026" = (true, "2026-01-15")
    ∧ parse_flexible_date today "15 January 2026" = (true, "2026-01-15")
    ∧ parse_flexible_date today "15 jan" = (true, strftimeYMD ⟨today.year, 1, 15⟩)
    ∧ parse_flexible_date today "banana" = (false, "Invalid date format") :=
  ⟨rfl, rfl, rfl, rfl, rfl, rfl, rfl, rfl, rfl, rfl⟩

/-- Python `str.replace(',', '')`. -/
def removeCommas (s : String) : String := String.mk (s.data.filter (· ≠ ','))

/-- Python `float()` restricted to plain decimal literals (optional sign,
digits around an optional point), which is all the amount tokens use;
parsed exactly into ℚ. -/
def pyFloat (s : String) : Option ℚ :=
  let (neg, rest) : Bool × List Char :=
    match s.data with
    | '-' :: r => (true, r)
    | '+' :: r => (false, r)
    | r => (false, r)
  let mag : Option ℚ :=
    match splitOnChar '.' rest with
    | [ip] => if allDigits ip then some (digitsToNat ip : ℚ) else none
    | [ip, fp] =>
      if (allDigits ip || ip.isEmpty) && (allDigits fp || fp.isEmpty)
          && !(ip.isEmpty && fp.isEmpty) then
        some ((digitsToNat ip : ℚ) + (digitsToNat fp : ℚ) / (10 : ℚ) ^ fp.length)
      else none
    | _ => none
  mag.map (fun q => if neg then -q else q)

/-- Sort key of a date: lexicographic (year, month, day) packed into an
integer (months ≤ 12 and days ≤ 31, so the packing is order-faithful). -/
def Date.key (d : Date) : Int := d.year * 10000 + (d.month : Int) * 100 + (d.day : Int)

/-- Insert into a descending-sorted list, after all strictly greater keys
and before equal ones. -/
def ordered_insert_desc {α : Type} (key : α → Int) (a : α) : List α → List α
  | [] => [a]
  | b :: l => if key b ≤ key a then a :: b :: l else b :: ordered_insert_desc key a l

/-- Stable descending sort by key: the behaviour of Python
`list.sort(key=..., reverse=True)` / `sorted(..., reverse=True)`, which are
stable and keep equal elements in their original order. -/
def sort_desc {α : Type} (key : α → Int) : List α → List α
  | [] => []
  | a :: l => ordered_insert_desc key a (sort_desc key l)

/-- Round to the nearest integer, ties to even — the rounding of Python's
`f"{x:,.0f}"` (up to binary-float representation noise, immaterial here). -/
def roundHalfEven (q : ℚ) : ℤ :=
  let f := q.floor
  let r := q - (f : ℚ)
  if r < 1 / 2 then f
  else if 1 / 2 < r then f + 1
  else if f % 2 = 0 then f else f + 1

/-- Insert a comma after every third digit; operates on a reversed digit
list, `k` counts digits emitted since the last comma. -/
def commaGroupAux : List Char → Nat → List Char
  | [], _ => []
  | c :: cs, k =>
    if k = 3 then ',' :: c :: commaGroupAux cs 1
    else c :: commaGroupAux cs (k + 1)

/-- Thousands-separated decimal rendering of a natural number. -/
def withCommas (n : Nat) : String :=
  String.mk (commaGroupAux (toString n).data.reverse 0).reverse

/-- `format_currency` (`telegram_bot.py:193`): `f"Rs. {amount:,.0f}"`. -/
def format_currency (amount : ℚ) : String :=
  let n := roundHalfEven amount
  "Rs. " ++ (if n < 0 then "-" else "") ++ withCommas n.natAbs

/-- `strftime("%d %b")` as used for transaction display dates. -/
def fmtShortDate (d : Date) : String :=
  pad2 d.day ++ " " ++ MONTH_ABBREV_CAPS.getD (d.month - 1) ""

/-- `get_last_transaction` (`telegram_bot.py:197`): latest entry of a kind,
after a stable descending sort by date. -/
def get_last_transaction (doc : MonthRec) (txnType : String) : Option String :=
  let items := if txnType = "purchase" then doc.daily_expenses else doc.credits
  match sort_desc (fun e => e.date.key) items with
  | [] => none
  | item :: _ => some (format_currency item.amount ++ " on " ++ fmtShortDate item.date)

/-- `strftime("%B")`: full month name of a (valid) date. -/
def month_name_of (d : Date) : String := MONTHS.getD (d.month - 1) ""

/-- `get_month_name_from_date` (`app.py:81`): strict `%Y-%m-%d` parse, then
the month name; `none` models the raised `ValueError`. -/
def get_month_name_from_date (date_str : String) : Option String :=
  (parseISO date_str.data).map month_name_of

/-- The atomic `$push` update: append an entry to the selected array of the
stored document, a no-op when the document is absent (`update_one` matching
nothing). -/
def pushEntry (s : Store) (y : Int) (mn : String) (k : TxnKind) (e : Entry) : Store :=
  match s y mn with
  | some d => storeSet s y mn (append_entry d k e)
  | none => s

/-- The atomic `$set` update of the two derived fields. -/
def setTotals (s : Store) (y : Int) (mn : String) (te bal : ℚ) : Store :=
  match s y mn with
  | some d => storeSet s y mn { d with total_expense := te, balance := bal }
  | none => s

theorem storeSet_self (s : Store) (y : Int) (mn : String) (d : MonthRec) :
    storeSet s y mn d y mn = some d := by
  simp [storeSet]

theorem storeSet_other (s : Store) (y y2 : Int) (mn mn2 : String) (d : MonthRec)
    (h : ¬ (y2 = y ∧ mn2 = mn)) : storeSet s y mn d y2 mn2 = s y2 mn2 := by
  simp [storeSet, h]

/-- `generate_transaction_response` (`telegram_bot.py:216`): the receipt
sent after a recorded chat transaction. -/
def generate_transaction_response (txnType : String) (amount : ℚ) (date_str : String)
    (doc : MonthRec) (mn : String) (y : Int) (username : Option String) : String :=
  let display_date :=
    match parseISO date_str.data with
    | some d => pad2 d.day ++ " " ++ MONTH_ABBREV_CAPS.getD (d.month - 1) "" ++ " " ++ toString d.year
    | none => date_str
  let current_due := doc.balance
  let total_purchases := doc.total_expense
  let total_payments := sum_amounts doc.credits
  let action := if txnType = "purchase" then "Purchase" else "Payment"
  let lines1 := ["<b>" ++ action ++ " Recorded</b>", "",
                 "Amount: " ++ format_currency amount, "Date: " ++ display_date]
  let lines2 := lines1 ++ (match username with | some u => ["By: @" ++ u] | none => [])
  let lines3 := lines2 ++
    ["", "------------------------", "",
     "<b>Current Due: " ++ format_currency current_due ++ "</b>", "",
     mn ++ " " ++ toString y ++ ":",
     "  Total Spent: " ++ format_currency total_purchases,
     "  Total Paid: " ++ format_currency total_payments]
  let lines4 := lines3 ++
    (if txnType = "purchase" then
      match get_last_transaction doc "payment" with
      | some lp => ["", "Last payment: " ++ lp]
      | none => []
    else
      match get_last_transaction doc "purchase" with
      | some lp => ["", "Last purchase: " ++ lp]
      | none => [])
  String.intercalate "\n" lines4

/-- The JSON body of a `POST /api/transactions` request after the
required-fields check and the `float()` conversion of `amount`. -/
structure TxnRequest where
  date : String
  ttype : String
  amount : ℚ
  description : String
deriving DecidableEq, Repr

/-- Outcome of the HTTP endpoint: a status code with either the final
serialized month document or an error message. -/
inductive HttpResult where
  | ok (status : Nat) (doc : MonthRec)
  | err (status : Nat) (msg : String)
deriving DecidableEq, Repr

/-- `add_transaction` (`app.py:588`), after JSON decoding: validate amount
then type then date, find-or-create the month document (discarding the
insert and re-reading on a lost creation race), `$push` the entry, recompute
totals against the inherited balance, `$set` them, and return the final
document. -/
def add_transaction (s : Store) (race : Option MonthRec) (req : TxnRequest) :
    HttpResult × Store :=
  if req.amount ≤ 0 then (HttpResult.err 400 "Amount must be greater than zero", s)
  else if ¬ (req.ttype = "purchase" ∨ req.ttype = "payment") then
    (HttpResult.err 400 "Invalid transaction type. Must be one of: purchase, payment", s)
  else
    match parseISO req.date.data with
    | none =>
      (HttpResult.err 400
        ("Invalid date format: '" ++ req.date ++ "'. Expected format: YYYY-MM-DD"), s)
    | some d =>
      let mn := month_name_of d
      let y := d.year
      let s1 :=
        match s y mn with
        | some _ => s
        | none =>
          match race with
          | none => storeSet s y mn (create_month_skeleton s mn y)
          | some winner => storeSet s y mn winner
      let e : Entry :=
        { date := d, amount := req.amount
          description := if req.description = "" then none else some req.description }
      let k := if req.ttype = "purchase" then TxnKind.purchase else TxnKind.payment
      let s2 := pushEntry s1 y mn k e
      match s2 y mn with
      | none => (HttpResult.err 500 "'NoneType' object has no attribute 'get'", s2)
      | some updated =>
        let prev := get_previous_month_balance s2 mn y
        let u2 := recalculate_month_totals updated prev
        let s3 := setTotals s2 y mn u2.total_expense u2.balance
        match s3 y mn with
        | none => (HttpResult.err 500 "'NoneType' object has no attribute 'get'", s3)
        | some finalDoc => (HttpResult.ok 201 finalDoc, s3)

/-- The generic exception reply of the chat transaction handler. -/
def err_recording (t : String) : String := "Error recording " ++ t ++ ". Please try again."

/-- Tail of the chat transaction flow shared by the found and freshly
created cases: `$push` the entry, recompute, `$set`, format the receipt. -/
def chat_append_finish (s1 : Store) (txnType date_str mn : String) (y : Int) (d : Date)
    (amount : ℚ) (username : Option String) : String × Store :=
  let e : Entry := { date := d, amount := amount, description := none }
  let k := if txnType = "purchase" then TxnKind.purchase else TxnKind.payment
  let s2 := pushEntry s1 y mn k e
  match s2 y mn with
  | none => (err_recording txnType, s2)
  | some updated =>
    let prev := get_previous_month_balance s2 mn y
    let u2 := recalculate_month_totals updated prev
    let s3 := setTotals s2 y mn u2.total_expense u2.balance
    match s3 y mn with
    | none => (err_recording txnType, s3)
    | some finalDoc =>
      (generate_transaction_response txnType amount date_str finalDoc mn y username, s3)

/-- `_process_transaction_command` (`telegram_bot.py:375`): parse and
validate amount and date, find-or-create the month document — note the
`insert_one` here is NOT protected against a creation race: a failed insert
propagates to the generic handler which returns the error reply — then
`$push`, recompute, `$set`, and format the receipt. -/
def process_transaction_command (s : Store) (race : Option MonthRec) (today : Date)
    (command : String) (parts : List String) (username : Option String) : String × Store :=
  if parts.length < 2 then
    ("Missing amount.\n\nUsage: " ++ command ++ " [amount] [date]\nExample: " ++ command
      ++ " 2500", s)
  else
    let tok := parts.getD 1 ""
    match pyFloat (removeCommas tok) with
    | none =>
      ("Invalid amount: " ++ tok ++ "\n\nPlease enter a valid number.\nExample: " ++ command
        ++ " 2500", s)
    | some amount =>
      if amount ≤ 0 then ("Amount must be greater than zero.", s)
      else
        let date_input := if 2 < parts.length then String.intercalate " " (parts.drop 2) else ""
        let pr := parse_flexible_date today date_input
        if pr.1 = false then
          ("Invalid date format: " ++ date_input
            ++ "\n\nAccepted formats:\n  15/1/2026 or 15-1-2026\n  15 jan or 15 january 2026\n  today or yesterday", s)
        else
          let date_str := pr.2
          let txnType := if command = "/purchase" then "purchase" else "payment"
          match parseISO date_str.data with
          | none => (err_recording txnType, s)
          | some d =>
            let mn := month_name_of d
            let y := d.year
            match s y mn with
            | none =>
              match race with
              | some winner => (err_recording txnType, storeSet s y mn winner)
              | none =>
                chat_append_finish (storeSet s y mn (create_month_skeleton s mn y))
                  txnType date_str mn y d amount username
            | some _ => chat_append_finish s txnType date_str mn y d amount username

/-- C6: on both entry-creation paths the positivity check precedes every
store operation: a non-positive parsed amount is answered with the
invalid-amount error and the store is returned untouched; and the
thousands-separated chat token `2,500` parses to 2500 and is accepted (the
entry lands in the store with amount 2500). -/
theorem C6_amount_guard :
    (∀ (s : Store) (race : Option MonthRec) (req : TxnRequest), req.amount ≤ 0 →
      add_transaction s race req = (HttpResult.err 400 "Amount must be greater than zero", s))
    ∧ (∀ (s : Store) (race : Option MonthRec) (today : Date) (command p0 tok : String)
        (rest : List String) (username : Option String) (a : ℚ),
        pyFloat (removeCommas tok) = some a → a ≤ 0 →
        process_transaction_command s race today command (p0 :: tok :: rest) username
          = ("Amount must be greater than zero.", s))
    ∧ pyFloat (removeCommas "2,500") = some 2500
    ∧ ((process_transaction_command (fun _ _ => none) none ⟨2026, 10, 12⟩ "/purchase"
        ["/purchase", "2,500"] none).2 2026 "October").map MonthRec.daily_expenses
        = some [⟨⟨2026, 10, 12⟩, 2500, none⟩] := by
  refine ⟨?_, ?_, by decide, by decide⟩
  · intro s race req h
    simp [add_transaction, h]
  · intro s race today command p0 tok rest username a hf ha
    have hlen : ¬ (p0 :: tok :: rest).length < 2 := by
      simp [Nat.succ_le_succ, Nat.le_add_left]
    simp [process_transaction_command, hlen, hf, ha]

/-- C6 witness: the chat amount `0` is rejected with the untouched store. -/
theorem C6_amount_guard_witness :
    (pyFloat (removeCommas "0") = some 0 ∧ (0 : ℚ) ≤ 0)
    ∧ process_transaction_command (fun _ _ => none) none ⟨2026, 10, 12⟩ "/purchase"
        ["/purchase", "0"] none
      = ("Amount must be greater than zero.", fun _ _ => none) :=
  ⟨⟨by decide, by decide⟩,
   C6_amount_guard.2.1 (fun _ _ => none) none ⟨2026, 10, 12⟩ "/purchase" "/purchase" "0" []
     none 0 (by decide) (by decide)⟩

/-- C3 counterexample: the claim fails on the chat path. With an empty
store and a concurrent creator winning the insert race, the chat command
`/purchase 100` surfaces the generic error reply to the caller instead of
re-reading and completing. -/
theorem C3_chat_race_counterexample :
    (process_transaction_command (fun _ _ => none) (some (fresh_month "October" 0))
        ⟨2026, 10, 12⟩ "/purchase" ["/purchase", "100"] none).1
      = "Error recording purchase. Please try again." := by decide

/-- C3 (amended): on the HTTP endpoint a lost creation race is recovered —
the insert attempt is discarded, the winner's record is re-read and the
transaction completes with a 201 and the entry appended to the winner's
document; on the chat path a lost race instead surfaces the generic error
reply and writes nothing of its own. -/
theorem C3_creation_race_amended :
    (∀ (s : Store) (req : TxnRequest) (winner : MonthRec) (d : Date),
      0 < req.amount →
      (req.ttype = "purchase" ∨ req.ttype = "payment") →
      parseISO req.date.data = some d →
      s d.year (month_name_of d) = none →
      add_transaction s (some winner) req =
        (let mn := month_name_of d
         let y := d.year
         let e : Entry :=
           { date := d, amount := req.amount
             description := if req.description = "" then none else some req.description }
         let k := if req.ttype = "purchase" then TxnKind.purchase else TxnKind.payment
         let s2 := storeSet (storeSet s y mn winner) y mn (append_entry winner k e)
         let u2 := recalculate_month_totals (append_entry winner k e)
           (get_previous_month_balance s2 mn y)
         (HttpResult.ok 201 u2, storeSet s2 y mn u2)))
    ∧ (∀ (s : Store) (today : Date) (winner : MonthRec) (command tok : String)
        (username : Option String) (a : ℚ) (d : Date),
        pyFloat (removeCommas tok) = some a → 0 < a →
        parseISO (strftimeYMD today).data = some d →
        s d.year (month_name_of d) = none →
        process_transaction_command s (some winner) today command [command, tok] username
          = (err_recording (if command = "/purchase" then "purchase" else "payment"),
             storeSet s d.year (month_name_of d) winner)) := by
  constructor
  · intro s req winner d hamt htype hdate habsent
    have h1 : ¬ req.amount ≤ 0 := not_le.mpr hamt
    simp only [add_transaction, h1, if_false, htype, not_true, hdate, habsent,
      pushEntry, setTotals, storeSet_self]
    rfl
  · intro s today winner command tok username a d hf ha hdate habsent
    have h1 : ¬ a ≤ 0 := not_le.mpr ha
    have hlen : ¬ ([command, tok] : List String).length < 2 := by simp
    simp only [process_transaction_command, hlen, if_false, List.getD,
      List.get?_cons_succ, List.get?_cons_zero, Option.getD_some]
    rw [hf]
    simp [parse_flexible_date, h1, hdate, habsent]

/-- C3 amended witness: concrete lost race on the chat path returns the
error reply with only the winner's document in the store. -/
theorem C3_creation_race_amended_witness :
    pyFloat (removeCommas "100") = some 100
    ∧ (0 : ℚ) < 100
    ∧ parseISO (strftimeYMD ⟨2026, 10, 12⟩).data = some ⟨2026, 10, 12⟩
    ∧ ((fun _ _ => none : Store) (2026 : Int) (month_name_of ⟨2026, 10, 12⟩) = none)
    ∧ process_transaction_command (fun _ _ => none) (some (fresh_month "October" 0))
        ⟨2026, 10, 12⟩ "/purchase" ["/purchase", "100"] none
      = (err_recording (if "/purchase" = "/purchase" then "purchase" else "payment"),
         storeSet (fun _ _ => none) (2026 : Int) (month_name_of ⟨2026, 10, 12⟩)
           (fresh_month "October" 0)) :=
  ⟨by decide, by decide, by decide, rfl,
   C3_creation_race_amended.2 (fun _ _ => none) ⟨2026, 10, 12⟩ (fresh_month "October" 0)
     "/purchase" "100" none 100 ⟨2026, 10, 12⟩ (by decide) (by decide) (by decide) rfl⟩

/-- A merged-view transaction row of the due summary: the tuples
`(label, amount, date_str, date)` built in `generate_due_summary`. -/
structure TxnView where
  label : String
  amount : ℚ
  dateText : String
  date : Date
deriving DecidableEq, Repr

/-- Sort key used by `all_txns.sort(key=lambda x: x[3] ..., reverse=True)`. -/
def txn_key (t : TxnView) : Int := t.date.key

/-- The merged transaction rows: purchases (in insertion order) then
payments (in insertion order), as built by the two loops in
`generate_due_summary`. -/
def month_txn_views (doc : MonthRec) : List TxnView :=
  doc.daily_expenses.map
    (fun e => { label := "Purchase", amount := e.amount, dateText := fmtShortDate e.date,
                date := e.date })
  ++ doc.credits.map
    (fun c => { label := "Payment", amount := c.amount, dateText := fmtShortDate c.date,
                date := c.date })

/-- The recent-activity rows shown by the due summary: the merged rows,
stable-sorted by date descending, truncated to 5. -/
def recent_activity (doc : MonthRec) : List TxnView :=
  (sort_desc txn_key (month_txn_views doc)).take 5

/-- The lines of `generate_due_summary` (`telegram_bot.py:265`) when the
current month's document exists. -/
def due_summary_lines (s : Store) (today : Date) (doc : MonthRec) : List String :=
  let mn := month_name_of today
  let y := today.year
  let prev_balance := get_previous_month_balance s mn y
  let base := ["<b>Grocery Due Summary</b>", "",
               "<b>Current Due: " ++ format_currency doc.balance ++ "</b>", ""]
  let base2 := base ++
    (if prev_balance ≠ 0 then ["Previous Balance: " ++ format_currency prev_balance, ""] else [])
  let base3 := base2 ++
    [mn ++ " " ++ toString y ++ ":",
     "  Total Purchases: " ++ format_currency doc.total_expense,
     "  Total Payments: " ++ format_currency (sum_amounts doc.credits)]
  if month_txn_views doc = [] then base3
  else base3 ++ ["", "Recent Activity:"] ++
    (recent_activity doc).map
      (fun t => "  " ++ t.dateText ++ ": " ++ t.label ++ " " ++ format_currency t.amount)

/-- `generate_due_summary` (`telegram_bot.py:265`): the full report for the
current month, or the no-transactions message when its document is absent. -/
def generate_due_summary (s : Store) (today : Date) : String :=
  let mn := month_name_of today
  match s today.year mn with
  | none =>
    "<b>Grocery Due Summary</b>\n\nNo transactions for " ++ mn ++ " "
      ++ toString today.year ++ " yet."
  | some doc => String.intercalate "\n" (due_summary_lines s today doc)

/-- `get_command_help` (`telegram_bot.py:329`). -/
def get_command_help : String :=
  "<b>Grocery Tracker Commands</b>\n\n<b>/purchase [amount] [date]</b>\nRecord a purchase\n  /purchase 2500\n  /purchase 1500 15/1/2026\n\n<b>/payment [amount] [date]</b>\nRecord a payment\n  /payment 3000\n  /payment 2000 15 jan\n\n<b>/due</b>\nView current due summary\n\n<b>Date Formats:</b>\n  15/1/2026 or 15-1-2026\n  15 jan or 15 january 2026\n  today or yesterday\n  (Default: today)"

/-- `parts[0].lower().split('@')[0]`: the dispatch token of a message. -/
def token_command (w : String) : String :=
  String.mk ((pyLower w).data.takeWhile (· ≠ '@'))

/-- The dispatch token of a whole message text, `none` when the text has no
tokens (`process_command` returns `None` then). -/
def first_command (text : String) : Option String :=
  match splitWSstr (pyStrip text) with
  | [] => none
  | w :: _ => some (token_command w)

/-- `process_command` (`telegram_bot.py:354`): split on whitespace, dispatch
on the first token (lowercased, `@botname` suffix stripped) to the due
summary, the help text, or the transaction handler; anything else produces
no response. -/
def process_command (s : Store) (race : Option MonthRec) (today : Date) (text : String)
    (username : Option String) : Option String × Store :=
  match splitWSstr (pyStrip text) with
  | [] => (none, s)
  | w :: rest =>
    let command := token_command w
    if command = "/due" then (some (generate_due_summary s today), s)
    else if command = "/help" ∨ command = "/start" then (some get_command_help, s)
    else if command = "/purchase" ∨ command = "/payment" then
      let r := process_transaction_command s race today command (w :: rest) username
      (some r.1, r.2)
    else (none, s)

/-- An inbound Telegram message as read by `handle_webhook`: the fields the
handler consults, each optional where the Python `dict.get` tolerates
absence. -/
structure TgMessage where
  chat_id : Option Int
  text : String
  username : Option String
  first_name : Option String
  message_id : Option Int
deriving DecidableEq, Repr

/-- A webhook update payload (`update.get('message', {})`). -/
structure TgUpdate where
  message : Option TgMessage
deriving DecidableEq, Repr

/-- The status dictionary `handle_webhook` returns. -/
structure WebhookResult where
  status : String
  note : Option String := none
  command : Option String := none
  responded : Option Bool := none
deriving DecidableEq, Repr

/-- The header check `if secret_token and not self.verify_webhook_secret(...)`:
a present, non-empty token that differs from the configured secret. -/
def secret_rejects (secret_token : Option String) (ws : String) : Bool :=
  match secret_token with
  | some t => !(t = "") && !(t = ws)
  | none => false

/-- Python `text.startswith('/')`. -/
def startsWithSlash (t : String) : Bool :=
  match t.data with
  | [] => false
  | c :: _ => c == '/'

/-- `message.get('from', {})` username resolution with Python truthiness:
`get('username') or get('first_name', 'User')`. -/
def webhook_username (m : TgMessage) : String :=
  match m.username with
  | some u => if u = "" then m.first_name.getD "User" else u
  | none => m.first_name.getD "User"

/-- `handle_webhook` (`telegram_bot.py:446`): secret check, message/chat/text
filters, then command processing; the middle component of the result lists
the replies sent through `send_message`. -/
def handle_webhook (botChatId : Int) (ws : String) (s : Store) (race : Option MonthRec)
    (today : Date) (update : TgUpdate) (secret_token : Option String) :
    WebhookResult × List String × Store :=
  if secret_rejects secret_token ws then
    ({ status := "unauthorized", note := some "Invalid secret token" }, [], s)
  else
    match update.message with
    | none => ({ status := "ok", note := some "No message in update" }, [], s)
    | some m =>
      if m.chat_id ≠ some botChatId then
        ({ status := "ok", note := some "Chat ID not matching" }, [], s)
      else if m.text = "" ∨ startsWithSlash m.text = false then
        ({ status := "ok", note := some "Not a command" }, [], s)
      else
        let pr := process_command s race today m.text (some (webhook_username m))
        match pr.1 with
        | some resp =>
          ({ status := "ok", command := some m.text, responded := some true }, [resp], pr.2)
        | none =>
          ({ status := "ok", command := some m.text, responded := some false }, [], pr.2)

theorem ordered_insert_desc_perm {α : Type} (key : α → Int) (a : α) :
    ∀ l : List α, (ordered_insert_desc key a l).Perm (a :: l) := by
  intro l
  induction l with
  | nil => simp [ordered_insert_desc]
  | cons b l ih =>
    by_cases h : key b ≤ key a
    · simp [ordered_insert_desc, h]
    · simp only [ordered_insert_desc, h, if_false]
      exact (ih.cons b).trans (List.Perm.swap a b l)

theorem sort_desc_perm {α : Type} (key : α → Int) :
    ∀ l : List α, (sort_desc key l).Perm l := by
  intro l
  induction l with
  | nil => simp [sort_desc]
  | cons a l ih =>
    exact (ordered_insert_desc_perm key a (sort_desc key l)).trans (ih.cons a)

theorem ordered_insert_desc_pairwise {α : Type} (key : α → Int) (a : α) :
    ∀ l : List α, List.Pairwise (fun x y => key y ≤ key x) l →
      List.Pairwise (fun x y => key y ≤ key x) (ordered_insert_desc key a l) := by
  intro l
  induction l with
  | nil => intro _; simp [ordered_insert_desc]
  | cons b l ih =>
    intro h
    rw [List.pairwise_cons] at h
    by_cases hba : key b ≤ key a
    · simp only [ordered_insert_desc, hba, if_true]
      refine List.Pairwise.cons ?_ (List.Pairwise.cons h.1 h.2)
      intro y hy
      rcases List.mem_cons.mp hy with rfl | hy2
      · exact hba
      · exact le_trans (h.1 y hy2) hba
    · simp only [ordered_insert_desc, hba, if_false]
      refine List.Pairwise.cons ?_ (ih h.2)
      intro y hy
      have hy3 := (ordered_insert_desc_perm key a l).mem_iff.mp hy
      rcases List.mem_cons.mp hy3 with rfl | hy2
      · exact le_of_lt (lt_of_not_le hba)
      · exact h.1 y hy2

theorem sort_desc_pairwise {α : Type} (key : α → Int) :
    ∀ l : List α, List.Pairwise (fun x y => key y ≤ key x) (sort_desc key l) := by
  intro l
  induction l with
  | nil => simp [sort_desc]
  | cons a l ih => exact ordered_insert_desc_pairwise key a (sort_desc key l) ih

theorem filter_ordered_insert_desc_eq {α : Type} (key : α → Int) (k : Int) (a : α)
    (ha : key a = k) :
    ∀ l : List α, (ordered_insert_desc key a l).filter (fun x => key x == k)
      = a :: l.filter (fun x => key x == k) := by
  have hak : (key a == k) = true := by simp [ha]
  intro l
  induction l with
  | nil => simp [ordered_insert_desc, List.filter_cons, hak]
  | cons b l ih =>
    by_cases hba : key b ≤ key a
    · simp [ordered_insert_desc, hba, List.filter_cons, hak]
    · have hbk : (key b == k) = false := by
        simp only [beq_eq_false_iff_ne, ne_eq]
        intro hbkk
        exact hba (le_of_eq (hbkk.trans ha.symm))
      simp [ordered_insert_desc, hba, List.filter_cons, hbk, ih]

theorem filter_ordered_insert_desc_ne {α : Type} (key : α → Int) (k : Int) (a : α)
    (ha : ¬ key a = k) :
    ∀ l : List α, (ordered_insert_desc key a l).filter (fun x => key x == k)
      = l.filter (fun x => key x == k) := by
  have hak : (key a == k) = false := by simp [ha]
  intro l
  induction l with
  | nil => simp [ordered_insert_desc, List.filter_cons, hak]
  | cons b l ih =>
    by_cases hba : key b ≤ key a
    · simp [ordered_insert_desc, hba, List.filter_cons, hak]
    · simp only [ordered_insert_desc, hba, if_false, List.filter_cons, ih]

/-- Stability of the descending sort: elements with any fixed key keep their
original relative order (the distinguishing property of Python's stable
`list.sort`). -/
theorem sort_desc_filter_stable {α : Type} (key : α → Int) (k : Int) :
    ∀ l : List α, (sort_desc key l).filter (fun x => key x == k)
      = l.filter (fun x => key x == k) := by
  intro l
  induction l with
  | nil => rfl
  | cons a l ih =>
    by_cases ha : key a = k
    · rw [show sort_desc key (a :: l) = ordered_insert_desc key a (sort_desc key l) from rfl,
        filter_ordered_insert_desc_eq key k a ha (sort_desc key l), ih]
      simp [List.filter_cons, ha]
    · rw [show sort_desc key (a :: l) = ordered_insert_desc key a (sort_desc key l) from rfl,
        filter_ordered_insert_desc_ne key k a ha (sort_desc key l), ih]
      simp [List.filter_cons, ha]

/-- C7: when the current month's document exists, the due summary joins the
described lines; its recent-activity section lists at most 5 rows, namely
the first rows of the merged purchase/payment list after a date-descending
sort that is stable (equal dates keep original insertion order) and a
permutation of the merged list; everything listed is at least as recent as
everything cut off; the balance and both totals lines appear; and the
previous-balance line appears exactly when that balance is nonzero. -/
theorem C7_due_summary (s : Store) (today : Date) (doc : MonthRec)
    (h : s today.year (month_name_of today) = some doc) :
    generate_due_summary s today = String.intercalate "\n" (due_summary_lines s today doc)
    ∧ (recent_activity doc).length ≤ 5
    ∧ recent_activity doc = (sort_desc txn_key (month_txn_views doc)).take 5
    ∧ List.Pairwise (fun a b => txn_key b ≤ txn_key a) (sort_desc txn_key (month_txn_views doc))
    ∧ (sort_desc txn_key (month_txn_views doc)).Perm (month_txn_views doc)
    ∧ (∀ k : Int, (sort_desc txn_key (month_txn_views doc)).filter (fun t => txn_key t == k)
        = (month_txn_views doc).filter (fun t => txn_key t == k))
    ∧ (∀ a ∈ recent_activity doc, ∀ b ∈ (sort_desc txn_key (month_txn_views doc)).drop 5,
        txn_key b ≤ txn_key a)
    ∧ ("<b>Current Due: " ++ format_currency doc.balance ++ "</b>")
        ∈ due_summary_lines s today doc
    ∧ ("  Total Purchases: " ++ format_currency doc.total_expense)
        ∈ due_summary_lines s today doc
    ∧ ("  Total Payments: " ++ format_currency (sum_amounts doc.credits))
        ∈ due_summary_lines s today doc
    ∧ (get_previous_month_balance s (month_name_of today) today.year ≠ 0 →
        ("Previous Balance: "
            ++ format_currency (get_previous_month_balance s (month_name_of today) today.year))
          ∈ due_summary_lines s today doc)
    ∧ (get_previous_month_balance s (month_name_of today) today.year = 0 →
        due_summary_lines s today doc =
          ["<b>Grocery Due Summary</b>", "",
           "<b>Current Due: " ++ format_currency doc.balance ++ "</b>", "",
           month_name_of today ++ " " ++ toString today.year ++ ":",
           "  Total Purchases: " ++ format_currency doc.total_expense,
           "  Total Payments: " ++ format_currency (sum_amounts doc.credits)]
          ++ (if month_txn_views doc = [] then []
              else ["", "Recent Activity:"] ++
                (recent_activity doc).map
                  (fun t => "  " ++ t.dateText ++ ": " ++ t.label ++ " " ++ format_currency t.amount))) := by
  have hsorted := sort_desc_pairwise txn_key (month_txn_views doc)
  have hsplit := List.pairwise_append.mp
    (by rw [List.take_append_drop 5 (sort_desc txn_key (month_txn_views doc))]; exact hsorted)
  refine ⟨?_, ?_, rfl, hsorted, sort_desc_perm txn_key (month_txn_views doc),
    fun k => sort_desc_filter_stable txn_key k (month_txn_views doc),
    fun a ha b hb => hsplit.2.2 a ha b hb, ?_, ?_, ?_, ?_, ?_⟩
  · simp [generate_due_summary, h]
  · exact List.length_take_le 5 (sort_desc txn_key (month_txn_views doc))
  · by_cases hp : get_previous_month_balance s (month_name_of today) today.year = 0 <;>
      by_cases ht : month_txn_views doc = [] <;>
      simp [due_summary_lines, hp, ht]
  · by_cases hp : get_previous_month_balance s (month_name_of today) today.year = 0 <;>
      by_cases ht : month_txn_views doc = [] <;>
      simp [due_summary_lines, hp, ht]
  · by_cases hp : get_previous_month_balance s (month_name_of today) today.year = 0 <;>
      by_cases ht : month_txn_views doc = [] <;>
      simp [due_summary_lines, hp, ht]
  · intro hp
    by_cases ht : month_txn_views doc = [] <;> simp [due_summary_lines, hp, ht]
  · intro hp
    by_cases ht : month_txn_views doc = [] <;> simp [due_summary_lines, hp, ht]

/-- C7 witness: a store holding a concrete October 2026 document. -/
theorem C7_due_summary_witness :
    ((fun y2 m2 => if y2 = (2026 : Int) ∧ m2 = "October"
        then some (fresh_month "October" 0) else none : Store)
      (Date.mk 2026 10 12).year (month_name_of ⟨2026, 10, 12⟩) = some (fresh_month "October" 0))
    ∧ (recent_activity (fresh_month "October" 0)).length ≤ 5 := by
  refine ⟨by decide, ?_⟩
  exact (C7_due_summary
    (fun y2 m2 => if y2 = (2026 : Int) ∧ m2 = "October" then some (fresh_month "October" 0) else none)
    ⟨2026, 10, 12⟩ (fresh_month "October" 0) (by decide)).2.1

/-- C8: `process_command` splits the message on whitespace and dispatches on
the first token, lowercased and stripped of any `@botname` suffix: no token
means no response; `/due` yields the due summary; `/help` and `/start`
yield the help text; `/purchase` and `/payment` yield the transaction
handler's response (and its store); every other first token yields no
response and an untouched store. -/
theorem C8_dispatch (s : Store) (race : Option MonthRec) (today : Date) (text : String)
    (username : Option String) :
    (first_command text = none → process_command s race today text username = (none, s))
    ∧ (first_command text = some "/due" →
        process_command s race today text username = (some (generate_due_summary s today), s))
    ∧ (∀ c, first_command text = some c → (c = "/help" ∨ c = "/start") →
        process_command s race today text username = (some get_command_help, s))
    ∧ (∀ w rest, splitWSstr (pyStrip text) = w :: rest →
        (token_command w = "/purchase" ∨ token_command w = "/payment") →
        process_command s race today text username
          = (some (process_transaction_command s race today (token_command w) (w :: rest)
                username).1,
             (process_transaction_command s race today (token_command w) (w :: rest) username).2))
    ∧ (∀ c, first_command text = some c →
        c ∉ (["/due", "/help", "/start", "/purchase", "/payment"] : List String) →
        process_command s race today text username = (none, s)) := by
  rcases hsplit : splitWSstr (pyStrip text) with _ | ⟨w, rest⟩
  · refine ⟨?_, ?_, ?_, ?_, ?_⟩
    · intro _; simp [process_command, hsplit]
    · intro hc; simp [first_command, hsplit] at hc
    · intro c hc; simp [first_command, hsplit] at hc
    · intro w rest hwr; simp [hsplit] at hwr
    · intro c hc; simp [first_command, hsplit] at hc
  · have hfc : first_command text = some (token_command w) := by
      simp [first_command, hsplit]
    refine ⟨?_, ?_, ?_, ?_, ?_⟩
    · intro hc; rw [hfc] at hc; exact absurd hc (by simp)
    · intro hc
      rw [hfc] at hc
      have hw : token_command w = "/due" := Option.some.inj hc
      simp [process_command, hsplit, hw]
    · intro c hc hor
      rw [hfc] at hc
      have hw : token_command w = c := Option.some.inj hc
      rcases hor with rfl | rfl <;> simp [process_command, hsplit, hw]
    · intro w2 rest2 hwr hor
      injection hwr with hw hr
      subst hw
      subst hr
      rcases hor with hp | hp <;> simp [process_command, hsplit, hp]
    · intro c hc hnot
      rw [hfc] at hc
      have hw : token_command w = c := Option.some.inj hc
      simp only [List.mem_cons, List.not_mem_nil, or_false, not_or] at hnot
      obtain ⟨h1, h2, h3, h4, h5⟩ := hnot
      simp [process_command, hsplit, hw, h1, h2, h3, h4, h5]

/-- C8 witness: an unrecognised command is silently ignored. -/
theorem C8_dispatch_witness :
    first_command "/frobnicate" = some "/frobnicate"
    ∧ ("/frobnicate" : String) ∉ (["/due", "/help", "/start", "/purchase", "/payment"] : List String)
    ∧ process_command (fun _ _ => none) none ⟨2026, 10, 12⟩ "/frobnicate" none
        = (none, fun _ _ => none) :=
  ⟨by decide, by decide,
   (C8_dispatch (fun _ _ => none) none ⟨2026, 10, 12⟩ "/frobnicate" none).2.2.2.2
     "/frobnicate" (by decide) (by decide)⟩

/-- C10: with an accepted (or absent) secret token, a webhook update from a
foreign chat, and likewise an update whose text is empty or does not start
with `/`, is answered with an ok status, sends no reply, and returns the
store untouched — for every store, so no month record is read or written. -/
theorem C10_webhook_frame (botChatId : Int) (ws : String) (s : Store) (race : Option MonthRec)
    (today : Date) (update : TgUpdate) (secret_token : Option String)
    (hsec : secret_rejects secret_token ws = false) :
    (∀ m, update.message = some m → m.chat_id ≠ some botChatId →
      handle_webhook botChatId ws s race today update secret_token
        = ({ status := "ok", note := some "Chat ID not matching" }, [], s))
    ∧ (∀ m, update.message = some m → m.chat_id = some botChatId →
        (m.text = "" ∨ startsWithSlash m.text = false) →
      handle_webhook botChatId ws s race today update secret_token
        = ({ status := "ok", note := some "Not a command" }, [], s)) := by
  constructor
  · intro m hm hne
    simp [handle_webhook, hsec, hm, hne]
  · intro m hm heq htext
    simp [handle_webhook, hsec, hm, heq, htext]

/-- C10 witness: a message from a foreign chat id is ignored. -/
theorem C10_webhook_frame_witness :
    secret_rejects none "sec" = false
    ∧ (TgUpdate.mk (some ⟨some 888, "/due", none, none, none⟩)).message
        = some ⟨some 888, "/due", none, none, none⟩
    ∧ (some (888 : Int) ≠ some (777 : Int))
    ∧ handle_webhook 777 "sec" (fun _ _ => none) none ⟨2026, 10, 12⟩
        (TgUpdate.mk (some ⟨some 888, "/due", none, none, none⟩)) none
      = ({ status := "ok", note := some "Chat ID not matching" }, [], fun _ _ => none) :=
  ⟨rfl, rfl, by decide,
   (C10_webhook_frame 777 "sec" (fun _ _ => none) none ⟨2026, 10, 12⟩
     (TgUpdate.mk (some ⟨some 888, "/due", none, none, none⟩)) none rfl).1
     ⟨some 888, "/due", none, none, none⟩ rfl (by decide)⟩

end Grocery
